import Mathlib

/-!
Shallow embedding of the `BufferManager` adaptive-bitrate engine from
`src/src/player.js` (repository Bilsyp/algoritmaAbr_v2).

The source file defines two near-duplicate `BufferManager` classes.  The
first class (player.js lines 95-338) is embedded in namespace
`BufferManager`; the second class (lines 368-582) differs only in
`increaseQuality` (it additionally sets `config_.restrictToScreenSize = true`)
and in `segmentDownloaded` (it records no `delay` field); its differing
methods are embedded in namespace `BufferManager2`.

Modelling conventions:
* JavaScript numbers are modelled by `ℚ` (buffer levels, timestamps,
  latencies) and `ℤ` (bandwidths); the source only performs exact
  arithmetic on the paths the theorems are about, except for `Math.sqrt`
  in `calculateJitter`, which is modelled by `Real.sqrt`.
* `x.toFixed(1)` (used on buffer-fullness samples) is modelled by `round1`:
  rounding to one decimal place, ties towards `+∞` — exactly ECMAScript's
  choice ("if there are two such n, pick the larger n").  The string it
  produces is only ever used in numeric comparisons, so it is kept as `ℚ`.
* A thrown `TypeError` (member access on `undefined`/`null`, or calling a
  `null` callback) is modelled by `Except.error s`, where `s` is the state
  at the moment of the throw (assignments already executed are kept, as in
  JavaScript).  `Except.ok s` is normal return.
* Statement sequences that continue after a sub-expression has produced a
  value are split into helper definitions (`stepRestrict`, `afterStep`,
  `emitSwitch`, …) that pattern-match on that value; each helper is the
  direct continuation of the source lines named in its doc comment.
* `Array.prototype.sort` (called inside `getVariantByQualityIndex` with the
  comparator `(a, b) => a.bandwidth - b.bandwidth`) sorts the stored array
  in place and is stable; it is modelled by `List.insertionSort` with the
  relation `a.bandwidth ≤ b.bandwidth` (a stable ascending sort), and the
  state update `videoVariants := sortedCatalog …` models the in-place
  mutation.
* The ambient `setInterval` registered by `startMonitoring`, the invocation
  log of `switchQualityCallback`, and the number of buffer evaluations are
  tracked by the ghost fields `monitorTimerActive`, `switchCalls` and
  `bufferEvaluations`; no source decision reads them.
* Fields of the class that no embedded method reads or writes
  (`mediaElement`, `player`, `playbackRate`, `playbackRate_`,
  `isStartupComplete`, `monitorInterval`, `lastQualityChangeTime`,
  `bufferPercentage`, `failedSegments`, `cmsdManager`,
  `lastDownloadedSegments`, `resizeObserver`) are omitted from the state.
-/

namespace Abr

/-- A quality variant as seen by the engine: only `bandwidth` is ever read
(`(a, b) => a.bandwidth - b.bandwidth`, `variant.bandwidth`).  `tag` stands
for all remaining fields of the host player's variant object, so that
distinct variants with equal bandwidth stay distinguishable. -/
structure Variant where
  bandwidth : ℤ
  tag : ℕ := 0
deriving DecidableEq, Repr

/-- The part of the shaka configuration object the engine reads and writes:
`restrictions.maxBandwidth` (written by `restrictions`),
`restrictToScreenSize` (written by the second class's `increaseQuality`),
`safeMarginSwitch` and `clearBufferSwitch` (read when invoking the switch
callback). -/
structure Config where
  maxBandwidth : ℤ
  restrictToScreenSize : Bool
  safeMarginSwitch : ℚ
  clearBufferSwitch : Bool
deriving DecidableEq, Repr

/-- A record pushed onto `downloadedSegments` by `segmentDownloaded`
(first class, player.js lines 231-238). -/
structure SegmentRecord where
  contentType : String
  timestamp : ℚ
  latency : ℚ
  delay : ℚ
deriving DecidableEq, Repr

/-- Ghost record of one invocation of `switchQualityCallback(variant,
config_.safeMarginSwitch, config_.clearBufferSwitch)`. -/
structure SwitchCall where
  variant : Variant
  safeMarginSwitch : ℚ
  clearBufferSwitch : Bool
deriving DecidableEq, Repr

/-- The engine state: the fields of the `BufferManager` instance that the
embedded methods read or write, plus the ghost fields listed in the header
comment.  `switchCallbackSet` models whether `switchQualityCallback` is a
function (set by `init`) or `null`; `isEnabled` models the *distinct*
property of that name that `stop()` creates (`this.isEnabled = false` does
not touch `enabled_`). -/
structure State where
  videoVariants : List Variant
  currentQualityIndex : ℕ
  bufferLevel : ℚ
  lowBufferThreshold : ℚ
  highBufferThreshold : ℚ
  config_ : Option Config
  switchCallbackSet : Bool
  switchCalls : List SwitchCall
  downloadedSegments : List SegmentRecord
  enabled_ : Bool
  isEnabled : Option Bool
  monitorTimerActive : Bool
  bufferEvaluations : ℕ
deriving DecidableEq, Repr

attribute [ext] State

/-- The state a step of the engine ends in, whether it returned normally
(`.ok`) or threw (`.error`). -/
def resState : Except State State → State
  | .ok s => s
  | .error s => s

/-- The state component of a `chooseVariant` outcome. -/
def resStateP : Except State (Option Variant × State) → State
  | .ok (_, s) => s
  | .error s => s

/-- Whether a step returned normally (no thrown `TypeError`). -/
def evalOk : Except State State → Bool
  | .ok _ => true
  | .error _ => false

/-- Model of `sample.toFixed(1)` as used on buffer-fullness values: round to
one decimal place, ties towards `+∞` (ECMAScript `toFixed`). -/
def round1 (x : ℚ) : ℚ := (round (10 * x) : ℤ) / 10

/-- Model of `this.videoVariants.sort((a, b) => a.bandwidth - b.bandwidth)`:
a stable sort ascending by bandwidth. -/
def sortedCatalog (l : List Variant) : List Variant :=
  l.insertionSort (fun a b => a.bandwidth ≤ b.bandwidth)

namespace BufferManager

/-- `getVariantByQualityIndex(qualityIndex)` (player.js lines 216-221):
sorts `videoVariants` in place ascending by bandwidth and returns the
element at `qualityIndex` (`undefined`, i.e. `none`, when out of range),
together with the mutated state. -/
def getVariantByQualityIndex (s : State) (qualityIndex : ℕ) :
    Option Variant × State :=
  (( sortedCatalog s.videoVariants)[qualityIndex]?,
   { s with videoVariants := sortedCatalog s.videoVariants })

/-- `restrictions(bandwidth)` (player.js lines 208-210):
`this.config_.restrictions.maxBandwidth = bandwidth`; throws when `config_`
is `null`. -/
def restrictions (s : State) (bandwidth : ℤ) : Except State State :=
  match s.config_ with
  | some c => .ok { s with config_ := some { c with maxBandwidth := bandwidth } }
  | none => .error s

/-- Continuation shared by `decreaseQuality` and `increaseQuality`
(player.js lines 168-170 and 179-181): given the result of
`getVariantByQualityIndex` on the new index, pass its `bandwidth` to
`restrictions`; accessing `.bandwidth` of `undefined` throws. -/
def stepRestrict : Option Variant × State → Except State State
  | (some v, s2) => restrictions s2 v.bandwidth
  | (none, s2) => .error s2

/-- `decreaseQuality()` (player.js lines 165-172).  When
`currentQualityIndex > 0`: decrement, then look the new index up in the
sorted catalog and write its bandwidth into the restrictions. -/
def decreaseQuality (s : State) : Except State State :=
  if 0 < s.currentQualityIndex then
    let s1 := { s with currentQualityIndex := s.currentQualityIndex - 1 }
    stepRestrict (getVariantByQualityIndex s1 s1.currentQualityIndex)
  else .ok s

/-- `increaseQuality()` of the first class (player.js lines 174-183).
`maxQualityIndex = videoVariants.length - 1` is JavaScript number
arithmetic, so it is `-1` on an empty catalog: the guard is stated over
`ℤ`. -/
def increaseQuality (s : State) : Except State State :=
  if (s.currentQualityIndex : ℤ) < (s.videoVariants.length : ℤ) - 1 then
    let s1 := { s with currentQualityIndex := s.currentQualityIndex + 1 }
    stepRestrict (getVariantByQualityIndex s1 s1.currentQualityIndex)
  else .ok s

/-- The `return this.getVariantByQualityIndex(this.currentQualityIndex)`
of `chooseVariant` (player.js line 162), run on the state a quality step
left behind; a thrown step propagates. -/
def afterStep : Except State State → Except State (Option Variant × State)
  | .ok s1 => .ok (getVariantByQualityIndex s1 s1.currentQualityIndex)
  | .error e => .error e

/-- `chooseVariant()` (player.js lines 153-163): step quality down on a low
buffer, up on a high buffer, otherwise hold; then return
`getVariantByQualityIndex(currentQualityIndex)` on the updated state. -/
def chooseVariant (s : State) : Except State (Option Variant × State) :=
  if s.bufferLevel < s.lowBufferThreshold then
    afterStep (decreaseQuality s)
  else if s.bufferLevel > s.highBufferThreshold then
    afterStep (increaseQuality s)
  else .ok (getVariantByQualityIndex s s.currentQualityIndex)

/-- The `if (chosenVariant) { this.switchQualityCallback(...) }` tail of
`startMonitoringBuffer` (player.js lines 199-205): skip when no variant was
selected; otherwise invoke the callback with
`(chosenVariant, config_.safeMarginSwitch, config_.clearBufferSwitch)`,
which throws when `config_` is `null` (argument evaluation) or when the
callback is `null` (the call itself). -/
def emitSwitch : Except State (Option Variant × State) → Except State State
  | .error e => .error e
  | .ok (none, s1) => .ok s1
  | .ok (some v, s1) =>
    match s1.config_ with
    | none => .error s1
    | some c =>
      if s1.switchCallbackSet then
        .ok { s1 with switchCalls := s1.switchCalls ++
                [⟨v, c.safeMarginSwitch, c.clearBufferSwitch⟩] }
      else .error s1

/-- `startMonitoringBuffer()` (player.js lines 193-206), the buffer
evaluation: store the host's buffer-fullness sample (`toFixed(1)`), run
`chooseVariant`, then the `emitSwitch` tail.  `sample` is the value
`this.getBufferFullness()` returns on this call; `bufferEvaluations` is the
ghost evaluation counter. -/
def startMonitoringBuffer (s : State) (sample : ℚ) : Except State State :=
  emitSwitch (chooseVariant
    { s with bufferLevel := round1 sample,
             bufferEvaluations := s.bufferEvaluations + 1 })

/-- `init(switchQualityCallback)` (player.js lines 124-126). -/
def init (s : State) : State := { s with switchCallbackSet := true }

/-- `configure(config)` (player.js lines 335-337). -/
def configure (s : State) (c : Config) : State := { s with config_ := some c }

/-- `setVariants(variants)` (player.js lines 149-151): wholesale
replacement of the catalog. -/
def setVariants (s : State) (variants : List Variant) : State :=
  { s with videoVariants := variants }

/-- `enable()` (player.js lines 185-187). -/
def enable (s : State) : State := { s with enabled_ := true }

/-- `disable()` (player.js lines 189-191). -/
def disable (s : State) : State := { s with enabled_ := false }

/-- `startMonitoring()` (player.js lines 241-251): registers a
`setInterval` whose id is never stored; the ghost flag records that the
periodic timer is active.  The tick body only reads telemetry and renders
statistics. -/
def startMonitoring (s : State) : State := { s with monitorTimerActive := true }

/-- `stop()` (player.js lines 132-145): nulls the switch callback, creates
`isEnabled = false` (a property distinct from `enabled_`), clears the
catalog.  It never touches the `setInterval` registered by
`startMonitoring` (whose id was never stored), so `monitorTimerActive` is
not cleared. -/
def stop (s : State) : State :=
  { s with switchCallbackSet := false, isEnabled := some false,
           videoVariants := [] }

/-- The duck-typed `request` argument of `segmentDownloaded`:
`timeToFirstByte` may be `undefined` (`request.timeToFirstByte || 0`). -/
structure Request where
  contentType : String
  timeToFirstByte : Option ℚ
  requestStartTime : ℚ
deriving DecidableEq, Repr

/-- The telemetry tail of `segmentDownloaded` (player.js lines 228-238):
push a `SegmentRecord` with `timestamp = Date.now()`,
`latency = deltaTimeMs + (timeToFirstByte || 0)` and
`delay = Date.now() - requestStartTime + (timeToFirstByte || 0)`. -/
def pushSegment (now deltaTimeMs : ℚ) (request : Request) (s1 : State) :
    State :=
  { s1 with downloadedSegments := s1.downloadedSegments ++
      [{ contentType := request.contentType, timestamp := now,
         latency := deltaTimeMs + request.timeToFirstByte.getD 0,
         delay := now - request.requestStartTime +
           request.timeToFirstByte.getD 0 }] }

/-- Apply `f` to the state of a normal return; a thrown error propagates
and `f` is skipped (the remaining statements do not run). -/
def mapOk (f : State → State) : Except State State → Except State State
  | .ok s => .ok (f s)
  | .error e => .error e

/-- `segmentDownloaded(deltaTimeMs, numBytes, allowSwitch, request)`
(player.js lines 223-239): when `allowSwitch`, first run
`startMonitoringBuffer` (a thrown error propagates and skips the telemetry
push); then `pushSegment`.  `now` is the value `Date.now()` returns during
this call and `sample` the buffer fullness the host would report;
`numBytes` is accepted and ignored, as in the source. -/
def segmentDownloaded (s : State) (now deltaTimeMs : ℚ) (_numBytes : ℕ)
    (allowSwitch : Bool) (request : Request) (sample : ℚ) :
    Except State State :=
  if allowSwitch then
    mapOk (pushSegment now deltaTimeMs request) (startMonitoringBuffer s sample)
  else .ok (pushSegment now deltaTimeMs request s)

/-- `calculateJitter()` (player.js lines 253-269): 0 with fewer than two
delay samples, otherwise `Math.round(sqrt(Σ (d - mean)² / (n - 1))) / 1000`.
Mean and the squared differences are exact rational arithmetic; the square
root lives in `ℝ`. -/
noncomputable def calculateJitter (s : State) : ℝ :=
  let delays := s.downloadedSegments.map (·.delay)
  if delays.length < 2 then 0
  else
    let meanDelay : ℚ := delays.sum / delays.length
    let sumSquaredDifferences : ℚ :=
      (delays.map (fun d => (d - meanDelay) ^ 2)).sum
    (round (Real.sqrt ((sumSquaredDifferences : ℝ) /
        ((delays.length : ℝ) - 1))) : ℤ) / 1000

/-- The `Math.abs(videoTimestamp - audioTimestamp)` tail of
`calculateDelay` (player.js line 302): subtraction involving `undefined`
yields `NaN` (modelled `none`), and `Math.abs(NaN)` is `NaN`. -/
def absDiff : Option ℚ × Option ℚ → Option ℚ
  | (some v, some a) => some |v - a|
  | (some _, none) => none
  | (none, _) => none

/-- `calculateDelay(videoTimestamp, audioTimestamp)` (player.js lines
293-303): walk `downloadedSegments` in order, overwriting `videoTimestamp`
with the timestamp of each `"video"` record and `audioTimestamp` with that
of each `"audio"` record, then return `Math.abs(video - audio)`.  The call
site (`startMonitoring`) passes no arguments, so both start `undefined`
(`none`). -/
def calculateDelay (s : State) (videoTimestamp audioTimestamp : Option ℚ) :
    Option ℚ :=
  absDiff (s.downloadedSegments.foldl
    (fun p item =>
      if item.contentType = "video" then (some item.timestamp, p.2)
      else if item.contentType = "audio" then (p.1, some item.timestamp)
      else p)
    (videoTimestamp, audioTimestamp))

/-- The field values the constructor (player.js lines 96-122) assigns,
before it calls `startMonitoring()` and `startMonitoringBuffer()`. -/
def baseState : State where
  videoVariants := []
  currentQualityIndex := 0
  bufferLevel := 0
  lowBufferThreshold := 3/10
  highBufferThreshold := 4/5
  config_ := none
  switchCallbackSet := false
  switchCalls := []
  downloadedSegments := []
  enabled_ := false
  isEnabled := none
  monitorTimerActive := false
  bufferEvaluations := 0

/-- The state after the constructor finishes: field initialisation, then
`startMonitoring()`, then `startMonitoringBuffer()` with the host's first
buffer-fullness sample `sample0` (on the empty catalog this first
evaluation selects nothing and cannot throw, so `resState` is exact). -/
def initState (sample0 : ℚ) : State :=
  resState (startMonitoringBuffer (startMonitoring baseState) sample0)

/-- One buffer evaluation threaded into a fold: a previous thrown error is
sticky, otherwise evaluate the next sample. -/
def bindEval (q : ℚ) : Except State State → Except State State
  | .ok s => startMonitoringBuffer s q
  | .error e => .error e

/-- Running a sequence of buffer evaluations, stopping at a thrown
error. -/
def evalSeq (s : State) (qs : List ℚ) : Except State State :=
  qs.foldl (fun r q => bindEval q r) (.ok s)

end BufferManager

namespace BufferManager2

/-- The `this.config_.restrictToScreenSize = true` statement of the second
class's `increaseQuality` (player.js line 461), run after `restrictions`
returned normally; a thrown `restrictions` propagates and skips it. -/
def setRestrictToScreenSize : Except State State → Except State State
  | .ok s3 =>
    match s3.config_ with
    | some c => .ok { s3 with config_ := some { c with restrictToScreenSize := true } }
    | none => .error s3
  | .error e => .error e

/-- `increaseQuality()` of the second class (player.js lines 453-464): as
the first class's, but additionally sets `config_.restrictToScreenSize =
true` after the bandwidth restriction. -/
def increaseQuality (s : State) : Except State State :=
  if (s.currentQualityIndex : ℤ) < (s.videoVariants.length : ℤ) - 1 then
    let s1 := { s with currentQualityIndex := s.currentQualityIndex + 1 }
    setRestrictToScreenSize
      (BufferManager.stepRestrict
        (BufferManager.getVariantByQualityIndex s1 s1.currentQualityIndex))
  else .ok s

/-- `chooseVariant()` of the second class (player.js lines 432-441) —
textually identical to the first class's except that it calls the second
class's `increaseQuality`; `decreaseQuality` (lines 443-451) and
`getVariantByQualityIndex` (lines 494-499) have the same bodies as the
first class's, so those embeddings are shared. -/
def chooseVariant (s : State) : Except State (Option Variant × State) :=
  if s.bufferLevel < s.lowBufferThreshold then
    BufferManager.afterStep (BufferManager.decreaseQuality s)
  else if s.bufferLevel > s.highBufferThreshold then
    BufferManager.afterStep (increaseQuality s)
  else .ok (BufferManager.getVariantByQualityIndex s s.currentQualityIndex)

/-- `startMonitoringBuffer()` of the second class (player.js lines
473-486), same body as the first class's but dispatching to the second
class's `chooseVariant`. -/
def startMonitoringBuffer (s : State) (sample : ℚ) : Except State State :=
  BufferManager.emitSwitch (chooseVariant
    { s with bufferLevel := round1 sample,
             bufferEvaluations := s.bufferEvaluations + 1 })

end BufferManager2

/-! ### Spec-side definitions (for refinement-style comparisons) -/

/-- Modelled from the spec's words in §4.2: the sample standard deviation
(denominator `n - 1`) of a list of delays, as a real number. -/
noncomputable def stddevSpec (delays : List ℚ) : ℝ :=
  Real.sqrt
    ((delays.map (fun d : ℚ => ((d : ℝ) -
        (delays.map (fun d : ℚ => (d : ℝ))).sum / (delays.length : ℝ)) ^ 2)).sum /
      ((delays.length : ℝ) - 1))

/-- Modelled from the spec's words in §4.2: the *last-seen* timestamp of a
record of content type `ct`, scanning the record list in order (a later
record of the same type overwrites the tracked value). -/
def lastTimestampOf (ct : String) : List SegmentRecord → Option ℚ
  | [] => none
  | r :: l =>
    (lastTimestampOf ct l).or
      (if r.contentType = ct then some r.timestamp else none)

/-! ### Auxiliary definitions for the theorems -/

/-- Overwrite only the `enabled_` flag. -/
def setEnabled (b : Bool) (s : State) : State := { s with enabled_ := b }

/-- Apply a state transformation uniformly to both outcomes of a step. -/
def mapRes (f : State → State) : Except State State → Except State State
  | .ok s => .ok (f s)
  | .error s => .error (f s)

/-- Apply a state transformation uniformly to both outcomes of
`chooseVariant`, leaving the chosen variant untouched. -/
def mapResP (f : State → State) :
    Except State (Option Variant × State) → Except State (Option Variant × State)
  | .ok (v, s) => .ok (v, f s)
  | .error s => .error (f s)

/-- The invariant maintained by buffer evaluations once the host has
configured the engine, registered the switch callback and set a catalog of
`n` variants: the catalog length is `n`, the quality index is at most
`n - 1` (`0` when `n = 0`, by truncated subtraction), the configuration is
present and the callback registered. -/
def GoodState (n : ℕ) (s : State) : Prop :=
  s.videoVariants.length = n ∧ s.currentQualityIndex ≤ n - 1 ∧
    s.config_.isSome = true ∧ s.switchCallbackSet = true

/-! ### Concrete states used by witnesses and counterexamples -/

/-- A concrete host configuration. -/
def exampleConfig : Config where
  maxBandwidth := 10000
  restrictToScreenSize := false
  safeMarginSwitch := 0
  clearBufferSwitch := false

/-- The spec §8 example catalog `[{bw:100},{bw:500},{bw:1000}]`. -/
def catalog3 : List Variant := [⟨100, 0⟩, ⟨500, 1⟩, ⟨1000, 2⟩]

/-- A freshly constructed engine after `configure` and `init`, with the
catalog still empty. -/
def configuredEmpty : State :=
  BufferManager.init (BufferManager.configure (BufferManager.initState 0) exampleConfig)

/-- The configured engine with the three-variant catalog, standing at
quality index 2 (as in the spec §8 down-switch example). -/
def configured3At2 : State :=
  { (BufferManager.setVariants configuredEmpty catalog3) with currentQualityIndex := 2 }

/-- The configured engine with the three-variant catalog at index 0. -/
def configured3At0 : State := BufferManager.setVariants configuredEmpty catalog3

/-- A reachable state whose catalog was shrunk to empty while the quality
index was 1: set two variants, evaluate a high-buffer sample (index climbs
to 1), then `setVariants([])`. -/
def shrunkEmptyAt1 : State :=
  BufferManager.setVariants
    (resState (BufferManager.startMonitoringBuffer
      (BufferManager.setVariants configuredEmpty [⟨100, 0⟩, ⟨500, 1⟩]) (9/10))) []

/-- An engine that has recorded three segment downloads with delays
100, 200 and 300 ms. -/
def jitterState3 : State :=
  { configuredEmpty with downloadedSegments :=
      [⟨"video", 0, 0, 100⟩, ⟨"video", 0, 0, 200⟩, ⟨"video", 0, 0, 300⟩] }

/-- An engine that has recorded only a single `"video"` segment (no
`"audio"` record ever observed). -/
def delayStateVideoOnly : State :=
  { configuredEmpty with downloadedSegments := [⟨"video", 42, 0, 0⟩] }

/-- An engine with two video records and one audio record; the last-seen
video timestamp is 30 and the last-seen audio timestamp is 25. -/
def delayStateBoth : State :=
  { configuredEmpty with downloadedSegments :=
      [⟨"video", 10, 0, 0⟩, ⟨"audio", 25, 0, 0⟩, ⟨"video", 30, 0, 0⟩] }

/-- A concrete segment request. -/
def exampleRequest : BufferManager.Request where
  contentType := "video"
  timeToFirstByte := none
  requestStartTime := 0

/-! ### Helper lemmas -/

instance : IsTotal Variant (fun a b => a.bandwidth ≤ b.bandwidth) :=
  ⟨fun a b => le_total a.bandwidth b.bandwidth⟩

instance : IsTrans Variant (fun a b => a.bandwidth ≤ b.bandwidth) :=
  ⟨fun _ _ _ h1 h2 => le_trans h1 h2⟩

theorem sortedCatalog_perm (l : List Variant) : (sortedCatalog l).Perm l :=
  List.perm_insertionSort _ l

theorem sortedCatalog_sorted (l : List Variant) :
    List.Sorted (fun a b => a.bandwidth ≤ b.bandwidth) (sortedCatalog l) :=
  List.sorted_insertionSort _ l

theorem sortedCatalog_length (l : List Variant) :
    (sortedCatalog l).length = l.length :=
  (sortedCatalog_perm l).length_eq

theorem sortedCatalog_idem (l : List Variant) :
    sortedCatalog (sortedCatalog l) = sortedCatalog l :=
  List.Sorted.insertionSort_eq (sortedCatalog_sorted l)

theorem round1_eval (x : ℚ) : round1 x = (round (10 * x) : ℤ) / 10 := rfl

namespace BufferManager

theorem videoVariants_restrictions (s : State) (bw : ℤ) :
    (resState (restrictions s bw)).videoVariants = s.videoVariants := by
  unfold restrictions resState
  cases s.config_ <;> rfl

theorem videoVariants_stepRestrict (p : Option Variant × State) :
    (resState (stepRestrict p)).videoVariants = p.2.videoVariants := by
  unfold stepRestrict
  split
  · exact videoVariants_restrictions _ _
  · rfl

theorem videoVariants_decreaseQuality (s : State) :
    (resState (decreaseQuality s)).videoVariants.Perm s.videoVariants := by
  unfold decreaseQuality
  split
  · rw [videoVariants_stepRestrict]
    exact sortedCatalog_perm _
  · rfl

theorem videoVariants_increaseQuality (s : State) :
    (resState (increaseQuality s)).videoVariants.Perm s.videoVariants := by
  unfold increaseQuality
  split
  · rw [videoVariants_stepRestrict]
    exact sortedCatalog_perm _
  · rfl

theorem videoVariants_afterStep (r : Except State State) :
    (resStateP (afterStep r)).videoVariants.Perm (resState r).videoVariants := by
  unfold afterStep
  split
  · exact sortedCatalog_perm _
  · rfl

theorem videoVariants_emitSwitch (r : Except State (Option Variant × State)) :
    (resState (emitSwitch r)).videoVariants = (resStateP r).videoVariants := by
  unfold emitSwitch
  split
  · rfl
  · rfl
  · split
    · rfl
    · split <;> rfl

theorem videoVariants_chooseVariant (s : State) :
    (resStateP (chooseVariant s)).videoVariants.Perm s.videoVariants := by
  unfold chooseVariant
  split
  · exact (videoVariants_afterStep _).trans (videoVariants_decreaseQuality s)
  · split
    · exact (videoVariants_afterStep _).trans (videoVariants_increaseQuality s)
    · exact sortedCatalog_perm _

theorem videoVariants_startMonitoringBuffer (s : State) (q : ℚ) :
    (resState (startMonitoringBuffer s q)).videoVariants.Perm s.videoVariants := by
  unfold startMonitoringBuffer
  rw [videoVariants_emitSwitch]
  exact videoVariants_chooseVariant _

theorem idx_restrictions (s : State) (bw : ℤ) :
    (resState (restrictions s bw)).currentQualityIndex = s.currentQualityIndex := by
  unfold restrictions resState
  cases s.config_ <;> rfl

theorem idx_stepRestrict (p : Option Variant × State) :
    (resState (stepRestrict p)).currentQualityIndex = p.2.currentQualityIndex := by
  unfold stepRestrict
  split
  · exact idx_restrictions _ _
  · rfl

theorem idx_decreaseQuality (s : State) :
    (resState (decreaseQuality s)).currentQualityIndex = s.currentQualityIndex
    ∨ (resState (decreaseQuality s)).currentQualityIndex + 1 = s.currentQualityIndex := by
  unfold decreaseQuality
  split
  · right
    rw [idx_stepRestrict]
    simp only [BufferManager.getVariantByQualityIndex]
    omega
  · left; rfl

theorem idx_increaseQuality (s : State) :
    (resState (increaseQuality s)).currentQualityIndex = s.currentQualityIndex
    ∨ (resState (increaseQuality s)).currentQualityIndex = s.currentQualityIndex + 1 := by
  unfold increaseQuality
  split
  · right
    rw [idx_stepRestrict]
    rfl
  · left; rfl

theorem idx_afterStep (r : Except State State) :
    (resStateP (afterStep r)).currentQualityIndex
      = (resState r).currentQualityIndex := by
  unfold afterStep
  split <;> rfl

theorem idx_emitSwitch (r : Except State (Option Variant × State)) :
    (resState (emitSwitch r)).currentQualityIndex
      = (resStateP r).currentQualityIndex := by
  unfold emitSwitch
  split
  · rfl
  · rfl
  · split
    · rfl
    · split <;> rfl

theorem idx_startMonitoringBuffer (s : State) (q : ℚ) :
    (resState (startMonitoringBuffer s q)).currentQualityIndex = s.currentQualityIndex
    ∨ (resState (startMonitoringBuffer s q)).currentQualityIndex + 1 = s.currentQualityIndex
    ∨ (resState (startMonitoringBuffer s q)).currentQualityIndex = s.currentQualityIndex + 1 := by
  unfold startMonitoringBuffer chooseVariant
  rw [idx_emitSwitch]
  split
  · rw [idx_afterStep]
    rcases idx_decreaseQuality _ with h | h
    · left; exact h
    · right; left; exact h
  · split
    · rw [idx_afterStep]
      rcases idx_increaseQuality _ with h | h
      · left; exact h
      · right; right; exact h
    · left; rfl

theorem decreaseQuality_good (n : ℕ) (s : State) (h : GoodState n s) :
    evalOk (decreaseQuality s) = true
    ∧ GoodState n (resState (decreaseQuality s)) := by
  obtain ⟨hlen, hidx, hcfg, hcb⟩ := h
  unfold decreaseQuality
  split
  · rename_i hpos
    simp only [BufferManager.getVariantByQualityIndex]
    have hlt : s.currentQualityIndex - 1 < (sortedCatalog s.videoVariants).length := by
      rw [sortedCatalog_length, hlen]; omega
    rw [List.getElem?_eq_getElem hlt]
    simp only [stepRestrict]
    obtain ⟨c, hc⟩ := Option.isSome_iff_exists.mp hcfg
    unfold restrictions
    simp only [hc]
    refine ⟨rfl, ?_, ?_, rfl, hcb⟩
    · simp only [resState, sortedCatalog_length, hlen]
    · simp only [resState]
      omega
  · exact ⟨rfl, hlen, hidx, hcfg, hcb⟩

theorem increaseQuality_good (n : ℕ) (s : State) (h : GoodState n s) :
    evalOk (increaseQuality s) = true
    ∧ GoodState n (resState (increaseQuality s)) := by
  obtain ⟨hlen, hidx, hcfg, hcb⟩ := h
  unfold increaseQuality
  split
  · rename_i hguard
    rw [hlen] at hguard
    simp only [BufferManager.getVariantByQualityIndex]
    have hlt : s.currentQualityIndex + 1 < (sortedCatalog s.videoVariants).length := by
      rw [sortedCatalog_length, hlen]; omega
    rw [List.getElem?_eq_getElem hlt]
    simp only [stepRestrict]
    obtain ⟨c, hc⟩ := Option.isSome_iff_exists.mp hcfg
    unfold restrictions
    simp only [hc]
    refine ⟨rfl, ?_, ?_, rfl, hcb⟩
    · simp only [resState, sortedCatalog_length, hlen]
    · simp only [resState]
      omega
  · exact ⟨rfl, hlen, hidx, hcfg, hcb⟩

theorem emitAfter_good (n : ℕ) (r : Except State State) (hok : evalOk r = true)
    (h : GoodState n (resState r)) :
    evalOk (emitSwitch (afterStep r)) = true
    ∧ GoodState n (resState (emitSwitch (afterStep r))) := by
  cases r with
  | error e => exact absurd hok (by simp [evalOk])
  | ok s1 =>
    obtain ⟨hlen, hidx, hcfg, hcb⟩ := h
    simp only [resState] at hlen hidx hcfg hcb
    simp only [afterStep, BufferManager.getVariantByQualityIndex]
    cases hv : (sortedCatalog s1.videoVariants)[s1.currentQualityIndex]? with
    | none =>
      simp only [emitSwitch]
      exact ⟨rfl, by simp only [resState, sortedCatalog_length, hlen], by
        simp only [resState]; exact hidx, hcfg, hcb⟩
    | some v =>
      obtain ⟨c, hc⟩ := Option.isSome_iff_exists.mp hcfg
      simp only [emitSwitch, hc, hcb, if_true]
      exact ⟨rfl, by simp only [resState, sortedCatalog_length, hlen], by
        simp only [resState]; exact hidx, by simp only [resState, hc]; rfl, rfl⟩

theorem startMonitoringBuffer_good (n : ℕ) (s : State) (q : ℚ)
    (h : GoodState n s) :
    evalOk (startMonitoringBuffer s q) = true
    ∧ GoodState n (resState (startMonitoringBuffer s q)) := by
  obtain ⟨hlen, hidx, hcfg, hcb⟩ := h
  unfold startMonitoringBuffer chooseVariant
  have h0 : GoodState n
      { s with
        bufferLevel := round1 q
        bufferEvaluations := s.bufferEvaluations + 1 } := ⟨hlen, hidx, hcfg, hcb⟩
  split
  · have hd := decreaseQuality_good n _ h0
    exact emitAfter_good n _ hd.1 hd.2
  · split
    · have hi := increaseQuality_good n _ h0
      exact emitAfter_good n _ hi.1 hi.2
    · exact emitAfter_good n (.ok _) rfl h0

theorem evalSeq_good (n : ℕ) (qs : List ℚ) :
    ∀ s : State, GoodState n s →
      evalOk (evalSeq s qs) = true ∧ GoodState n (resState (evalSeq s qs)) := by
  induction qs with
  | nil => exact fun s h => ⟨rfl, h⟩
  | cons q qs ih =>
    intro s h
    have hstep := startMonitoringBuffer_good n s q h
    cases hE : startMonitoringBuffer s q with
    | error e =>
      rw [hE] at hstep
      exact absurd hstep.1 (by simp [evalOk])
    | ok s1 =>
      rw [hE] at hstep
      have : evalSeq s (q :: qs) = evalSeq s1 qs := by
        simp only [evalSeq, List.foldl_cons, bindEval, hE]
      rw [this]
      exact ih s1 hstep.2

theorem initState_zero :
    initState 0 = { baseState with monitorTimerActive := true, bufferEvaluations := 1 } := by
  norm_num [initState, baseState, startMonitoring, startMonitoringBuffer, chooseVariant,
    decreaseQuality, increaseQuality, getVariantByQualityIndex, stepRestrict, afterStep,
    emitSwitch, sortedCatalog, resState, round1, round_eq, List.insertionSort]

end BufferManager

theorem round1_half : round1 (1/2) = 1/2 := by
  unfold round1; rw [round_eq]; norm_num

theorem round1_one_tenth : round1 (1/10) = 1/10 := by
  unfold round1; rw [round_eq]; norm_num

theorem round1_nine_tenths : round1 (9/10) = 9/10 := by
  unfold round1; rw [round_eq]; norm_num

/-! ### C1 -/

/-- C1 counterexample: on the freshly constructed, configured engine whose
catalog is still empty, a buffer evaluation leaves `currentQualityIndex`
at 0 while `catalogSize - 1 = -1`, so the index is *not* within
`[0, catalogSize - 1]` — the claimed interval is empty for an empty
catalog. -/
theorem quality_index_c1_counterexample :
    (resState (BufferManager.startMonitoringBuffer configuredEmpty (1/2))).videoVariants.length = 0
    ∧ ¬ (((resState (BufferManager.startMonitoringBuffer configuredEmpty (1/2))).currentQualityIndex : ℤ)
          ≤ ((resState (BufferManager.startMonitoringBuffer configuredEmpty (1/2))).videoVariants.length : ℤ) - 1) := by
  have h : resState (BufferManager.startMonitoringBuffer configuredEmpty (1/2))
      = { configuredEmpty with bufferLevel := 1/2, bufferEvaluations := 2 } := by
    norm_num [configuredEmpty, exampleConfig, BufferManager.init, BufferManager.configure,
      BufferManager.initState_zero, BufferManager.baseState, BufferManager.startMonitoringBuffer,
      BufferManager.chooseVariant, BufferManager.decreaseQuality, BufferManager.increaseQuality,
      BufferManager.getVariantByQualityIndex, BufferManager.stepRestrict, BufferManager.afterStep,
      BufferManager.emitSwitch, sortedCatalog, resState, round1_half, List.insertionSort]
  rw [h]
  norm_num [configuredEmpty, BufferManager.init, BufferManager.configure,
    BufferManager.initState_zero, BufferManager.baseState]

/-- C1 (amended): per buffer evaluation the quality index changes by at
most 1 in either direction (for every state, errors included), and along
every sequence of buffer evaluations of a configured engine — catalog of
`variants` set once, callback registered, any configuration — no
evaluation throws and the index always stays at most
`catalogSize - 1` under truncated subtraction, i.e. within
`[0, max(catalogSize - 1, 0)]`; in particular it stays 0 on an empty
catalog. -/
theorem quality_index_changes_by_at_most_one_and_stays_clamped :
    (∀ (s : State) (q : ℚ),
      ((resState (BufferManager.startMonitoringBuffer s q)).currentQualityIndex : ℤ)
          ≤ s.currentQualityIndex + 1
      ∧ (s.currentQualityIndex : ℤ) - 1
          ≤ (resState (BufferManager.startMonitoringBuffer s q)).currentQualityIndex)
    ∧ (∀ (variants : List Variant) (c : Config) (qs : List ℚ),
      evalOk (BufferManager.evalSeq (BufferManager.setVariants (BufferManager.init
          (BufferManager.configure (BufferManager.initState 0) c)) variants) qs) = true
      ∧ (resState (BufferManager.evalSeq (BufferManager.setVariants (BufferManager.init
          (BufferManager.configure (BufferManager.initState 0) c)) variants) qs)).currentQualityIndex
        ≤ variants.length - 1) := by
  constructor
  · intro s q
    rcases BufferManager.idx_startMonitoringBuffer s q with h | h | h <;> omega
  · intro variants c qs
    have hg : GoodState variants.length
        (BufferManager.setVariants (BufferManager.init
          (BufferManager.configure (BufferManager.initState 0) c)) variants) := by
      refine ⟨rfl, ?_, rfl, rfl⟩
      have : (BufferManager.setVariants (BufferManager.init
          (BufferManager.configure (BufferManager.initState 0) c)) variants).currentQualityIndex
          = 0 := by
        simp [BufferManager.setVariants, BufferManager.init, BufferManager.configure,
          BufferManager.initState_zero, BufferManager.baseState]
      rw [this]
      exact Nat.zero_le _
    have h := BufferManager.evalSeq_good variants.length qs _ hg
    exact ⟨h.1, h.2.2.1⟩

/-! ### C4 -/

/-- C4: the spec demands that after `stop()` no further periodic monitor
ticks occur, but `stop` (player.js lines 132-145) never clears the
`setInterval` registered by `startMonitoring` (player.js lines 241-251),
whose id was never stored: `stop` leaves `monitorTimerActive` untouched,
so on the constructed engine the periodic timer is still active after
`stop()` — and after calling `stop()` again, even though `stop` itself is
idempotent on the engine's fields. -/
theorem stop_leaves_monitor_timer_active :
    (∀ s : State, (BufferManager.stop s).monitorTimerActive = s.monitorTimerActive)
    ∧ (BufferManager.stop (BufferManager.initState 0)).monitorTimerActive = true
    ∧ (∀ s : State, BufferManager.stop (BufferManager.stop s) = BufferManager.stop s) := by
  refine ⟨fun s => rfl, ?_, fun s => rfl⟩
  norm_num [BufferManager.stop, BufferManager.initState, BufferManager.baseState,
    BufferManager.startMonitoring, BufferManager.startMonitoringBuffer,
    BufferManager.chooseVariant, BufferManager.decreaseQuality,
    BufferManager.increaseQuality, BufferManager.getVariantByQualityIndex,
    BufferManager.stepRestrict, BufferManager.afterStep, BufferManager.emitSwitch,
    sortedCatalog, resState, round1, List.insertionSort]

/-! ### C5 -/

/-- C5: `setVariants` replaces the catalog wholesale; the catalog is
sorted ascending by bandwidth (index 0 lowest, last highest) before any
lookup by rank index, lookups read exactly the sorted list, and neither a
lookup nor a whole buffer evaluation changes the catalog's contents (the
in-place sort only permutes it). -/
theorem catalog_replaced_wholesale_and_sorted_before_lookup :
    (∀ (s : State) (vs : List Variant),
        (BufferManager.setVariants s vs).videoVariants = vs)
    ∧ (∀ l : List Variant, (sortedCatalog l).Perm l
        ∧ List.Sorted (fun a b => a.bandwidth ≤ b.bandwidth) (sortedCatalog l))
    ∧ (∀ (s : State) (i : ℕ),
        (BufferManager.getVariantByQualityIndex s i).1
          = (sortedCatalog s.videoVariants)[i]?
        ∧ (BufferManager.getVariantByQualityIndex s i).2.videoVariants
          = sortedCatalog s.videoVariants)
    ∧ (∀ (s : State) (q : ℚ),
        (resState (BufferManager.startMonitoringBuffer s q)).videoVariants.Perm
          s.videoVariants) := by
  refine ⟨fun s vs => rfl,
    fun l => ⟨sortedCatalog_perm l, sortedCatalog_sorted l⟩,
    fun s i => ⟨rfl, rfl⟩,
    fun s q => BufferManager.videoVariants_startMonitoringBuffer s q⟩

/-! ### Evaluation lemmas for the concrete states -/

theorem configuredEmpty_eq :
    configuredEmpty =
      { videoVariants := []
        currentQualityIndex := 0
        bufferLevel := 0
        lowBufferThreshold := 3/10
        highBufferThreshold := 4/5
        config_ := some exampleConfig
        switchCallbackSet := true
        switchCalls := []
        downloadedSegments := []
        enabled_ := false
        isEnabled := none
        monitorTimerActive := true
        bufferEvaluations := 1 } := by
  simp [configuredEmpty, BufferManager.init, BufferManager.configure,
    BufferManager.initState_zero, BufferManager.baseState]

theorem sortedCatalog_catalog3 : sortedCatalog catalog3 = catalog3 := by
  norm_num [sortedCatalog, catalog3, List.insertionSort, List.orderedInsert]

theorem configured3At2_eq :
    configured3At2 =
      { videoVariants := catalog3
        currentQualityIndex := 2
        bufferLevel := 0
        lowBufferThreshold := 3/10
        highBufferThreshold := 4/5
        config_ := some exampleConfig
        switchCallbackSet := true
        switchCalls := []
        downloadedSegments := []
        enabled_ := false
        isEnabled := none
        monitorTimerActive := true
        bufferEvaluations := 1 } := by
  rw [configured3At2, BufferManager.setVariants, configuredEmpty_eq]

theorem configured3At0_eq :
    configured3At0 =
      { videoVariants := catalog3
        currentQualityIndex := 0
        bufferLevel := 0
        lowBufferThreshold := 3/10
        highBufferThreshold := 4/5
        config_ := some exampleConfig
        switchCallbackSet := true
        switchCalls := []
        downloadedSegments := []
        enabled_ := false
        isEnabled := none
        monitorTimerActive := true
        bufferEvaluations := 1 } := by
  rw [configured3At0, BufferManager.setVariants, configuredEmpty_eq]

/-! ### C2 -/

/-- C2: whenever a buffer evaluation stores a sample strictly below
`lowBufferThreshold` while `currentQualityIndex > 0` (and the host has
supplied a configuration, and the sorted catalog has an entry `v` at the
next-lower rank), the engine decrements `currentQualityIndex` by exactly
one and writes `v.bandwidth` — the bandwidth of the new, lower variant —
into `restrictions.maxBandwidth`, whether or not the switch callback was
registered. -/
theorem low_buffer_steps_down_once (s : State) (q : ℚ) (c : Config) (v : Variant)
    (hlow : round1 q < s.lowBufferThreshold)
    (hidx : 0 < s.currentQualityIndex)
    (hcfg : s.config_ = some c)
    (hv : (sortedCatalog s.videoVariants)[s.currentQualityIndex - 1]? = some v) :
    (resState (BufferManager.startMonitoringBuffer s q)).currentQualityIndex
        = s.currentQualityIndex - 1
    ∧ (resState (BufferManager.startMonitoringBuffer s q)).config_
        = some { c with maxBandwidth := v.bandwidth } := by
  simp only [BufferManager.startMonitoringBuffer, BufferManager.chooseVariant,
    BufferManager.decreaseQuality, BufferManager.getVariantByQualityIndex,
    eq_true hlow, eq_true hidx, if_true]
  simp only [BufferManager.stepRestrict]
  unfold BufferManager.restrictions
  simp only [hcfg, hv]
  simp only [BufferManager.afterStep, BufferManager.getVariantByQualityIndex,
    sortedCatalog_idem, hv, BufferManager.emitSwitch]
  cases hcb : s.switchCallbackSet <;> simp [resState]

/-- C2 witness: the spec §8 example — catalog `[100, 500, 1000]` at index
2, sample `0.1` (< 0.3): the index becomes 1 and `maxBandwidth` becomes
500. -/
theorem low_buffer_steps_down_once_witness :
    round1 (1/10) < configured3At2.lowBufferThreshold
    ∧ 0 < configured3At2.currentQualityIndex
    ∧ configured3At2.config_ = some exampleConfig
    ∧ (sortedCatalog configured3At2.videoVariants)[configured3At2.currentQualityIndex - 1]?
        = some ⟨500, 1⟩
    ∧ (resState (BufferManager.startMonitoringBuffer configured3At2 (1/10))).currentQualityIndex = 1
    ∧ (resState (BufferManager.startMonitoringBuffer configured3At2 (1/10))).config_
        = some { exampleConfig with maxBandwidth := 500 } := by
  have h1 : round1 (1/10) < configured3At2.lowBufferThreshold := by
    rw [configured3At2_eq, round1_one_tenth]; norm_num
  have h2 : 0 < configured3At2.currentQualityIndex := by
    rw [configured3At2_eq]; norm_num
  have h3 : configured3At2.config_ = some exampleConfig := by
    rw [configured3At2_eq]
  have h4 : (sortedCatalog configured3At2.videoVariants)[configured3At2.currentQualityIndex - 1]?
      = some ⟨500, 1⟩ := by
    rw [configured3At2_eq]
    show (sortedCatalog catalog3)[1]? = some ⟨500, 1⟩
    rw [sortedCatalog_catalog3]
    rfl
  have h := low_buffer_steps_down_once configured3At2 (1/10) exampleConfig ⟨500, 1⟩ h1 h2 h3 h4
  refine ⟨h1, h2, h3, h4, ?_, h.2⟩
  rw [h.1, configured3At2_eq]
  rfl

/-! ### C3 -/

/-- C3: in the second `BufferManager` class (player.js lines 453-464, the
variant the spec's canonical design follows), whenever a buffer evaluation
stores a sample strictly above `highBufferThreshold` while
`currentQualityIndex < maxIndex` (thresholds ordered, configuration
supplied, sorted catalog entry `v` at the next-higher rank), the engine
increments `currentQualityIndex` by exactly one, writes `v.bandwidth` into
`restrictions.maxBandwidth`, and sets `restrictToScreenSize := true`,
whether or not the switch callback was registered. -/
theorem high_buffer_steps_up_once_and_restricts_to_screen (s : State) (q : ℚ)
    (c : Config) (v : Variant)
    (hth : s.lowBufferThreshold ≤ s.highBufferThreshold)
    (hhigh : s.highBufferThreshold < round1 q)
    (hguard : s.currentQualityIndex + 1 < s.videoVariants.length)
    (hcfg : s.config_ = some c)
    (hv : (sortedCatalog s.videoVariants)[s.currentQualityIndex + 1]? = some v) :
    (resState (BufferManager2.startMonitoringBuffer s q)).currentQualityIndex
        = s.currentQualityIndex + 1
    ∧ (resState (BufferManager2.startMonitoringBuffer s q)).config_
        = some { c with maxBandwidth := v.bandwidth, restrictToScreenSize := true } := by
  have hnl : ¬ (round1 q < s.lowBufferThreshold) :=
    not_lt.mpr (hth.trans hhigh.le)
  have hg : (s.currentQualityIndex : ℤ) < (s.videoVariants.length : ℤ) - 1 := by
    omega
  simp only [BufferManager2.startMonitoringBuffer, BufferManager2.chooseVariant,
    BufferManager2.increaseQuality, BufferManager.getVariantByQualityIndex,
    eq_false hnl, if_false, gt_iff_lt, eq_true hhigh, eq_true hg, if_true]
  simp only [BufferManager.stepRestrict]
  unfold BufferManager.restrictions
  simp only [hcfg, hv]
  simp only [BufferManager2.setRestrictToScreenSize]
  simp only [BufferManager.afterStep, BufferManager.getVariantByQualityIndex,
    sortedCatalog_idem, hv, BufferManager.emitSwitch]
  cases hcb : s.switchCallbackSet <;> simp [resState]

/-- C3 witness: the spec §8 example — catalog `[100, 500, 1000]` at index
0, sample `0.9` (> 0.8): the index becomes 1, `maxBandwidth` becomes 500
and `restrictToScreenSize` becomes true. -/
theorem high_buffer_steps_up_once_witness :
    configured3At0.lowBufferThreshold ≤ configured3At0.highBufferThreshold
    ∧ configured3At0.highBufferThreshold < round1 (9/10)
    ∧ configured3At0.currentQualityIndex + 1 < configured3At0.videoVariants.length
    ∧ configured3At0.config_ = some exampleConfig
    ∧ (sortedCatalog configured3At0.videoVariants)[configured3At0.currentQualityIndex + 1]?
        = some ⟨500, 1⟩
    ∧ (resState (BufferManager2.startMonitoringBuffer configured3At0 (9/10))).currentQualityIndex = 1
    ∧ (resState (BufferManager2.startMonitoringBuffer configured3At0 (9/10))).config_
        = some { exampleConfig with maxBandwidth := 500, restrictToScreenSize := true } := by
  have h1 : configured3At0.lowBufferThreshold ≤ configured3At0.highBufferThreshold := by
    rw [configured3At0_eq]; norm_num
  have h2 : configured3At0.highBufferThreshold < round1 (9/10) := by
    rw [configured3At0_eq, round1_nine_tenths]; norm_num
  have h3 : configured3At0.currentQualityIndex + 1 < configured3At0.videoVariants.length := by
    rw [configured3At0_eq]; norm_num [catalog3]
  have h4 : configured3At0.config_ = some exampleConfig := by
    rw [configured3At0_eq]
  have h5 : (sortedCatalog configured3At0.videoVariants)[configured3At0.currentQualityIndex + 1]?
      = some ⟨500, 1⟩ := by
    rw [configured3At0_eq]
    show (sortedCatalog catalog3)[1]? = some ⟨500, 1⟩
    rw [sortedCatalog_catalog3]
    rfl
  have h := high_buffer_steps_up_once_and_restricts_to_screen configured3At0 (9/10)
    exampleConfig ⟨500, 1⟩ h1 h2 h3 h4 h5
  refine ⟨h1, h2, h3, h4, h5, ?_, h.2⟩
  rw [h.1, configured3At0_eq]

/-! ### C6 -/

/-- Any state with an empty catalog and quality index 0 behaves as C6
describes under `chooseVariant`: no quality step fires, the lookup yields
no selection, and the state (catalog included) is returned unchanged. -/
theorem chooseVariant_empty_catalog (t : State)
    (ht : t.videoVariants = []) (hi : t.currentQualityIndex = 0) :
    BufferManager.chooseVariant t = .ok (none, t) := by
  have hsort : sortedCatalog t.videoVariants = t.videoVariants := by rw [ht]; rfl
  have hlook : (sortedCatalog t.videoVariants)[t.currentQualityIndex]? = none := by
    rw [hsort, ht]
    rfl
  have hupd : { t with videoVariants := sortedCatalog t.videoVariants } = t := by
    rw [hsort]
  unfold BufferManager.chooseVariant
  split
  · unfold BufferManager.decreaseQuality
    rw [if_neg (by omega : ¬ 0 < t.currentQualityIndex)]
    show BufferManager.afterStep (.ok t) = .ok (none, t)
    simp only [BufferManager.afterStep, BufferManager.getVariantByQualityIndex, hlook, hupd]
  · split
    · unfold BufferManager.increaseQuality
      rw [if_neg (by rw [hi, ht]; decide :
        ¬ (t.currentQualityIndex : ℤ) < (t.videoVariants.length : ℤ) - 1)]
      show BufferManager.afterStep (.ok t) = .ok (none, t)
      simp only [BufferManager.afterStep, BufferManager.getVariantByQualityIndex, hlook, hupd]
    · simp only [BufferManager.getVariantByQualityIndex, hlook, hupd]

/-- C6 (amended): if the catalog is empty and `currentQualityIndex = 0` —
which holds in every state reached without shrinking the catalog under a
raised index — a buffer evaluation yields no selection, skips the switch
callback, leaves `currentQualityIndex` (and everything else except the
stored sample and the ghost evaluation counter) unchanged, and does not
throw.  (When `currentQualityIndex > 0` and the buffer is low, the lookup
after the decrement yields `undefined` and the evaluation throws instead;
see the counterexample.) -/
theorem empty_catalog_yields_no_selection (s : State) (q : ℚ)
    (hcat : s.videoVariants = [])
    (hidx : s.currentQualityIndex = 0) :
    BufferManager.chooseVariant
        { s with bufferLevel := round1 q, bufferEvaluations := s.bufferEvaluations + 1 }
      = .ok (none,
          { s with bufferLevel := round1 q, bufferEvaluations := s.bufferEvaluations + 1 })
    ∧ BufferManager.startMonitoringBuffer s q
      = .ok { s with bufferLevel := round1 q, bufferEvaluations := s.bufferEvaluations + 1 } := by
  have hc := chooseVariant_empty_catalog
    { s with bufferLevel := round1 q, bufferEvaluations := s.bufferEvaluations + 1 }
    hcat hidx
  refine ⟨hc, ?_⟩
  unfold BufferManager.startMonitoringBuffer
  rw [hc]
  rfl

/-- C6 witness: the configured engine with its (empty) initial catalog,
evaluated on a low-buffer sample `0.1`: no selection, no callback, no
error, index still 0. -/
theorem empty_catalog_yields_no_selection_witness :
    configuredEmpty.videoVariants = []
    ∧ configuredEmpty.currentQualityIndex = 0
    ∧ BufferManager.startMonitoringBuffer configuredEmpty (1/10)
        = .ok { configuredEmpty with
                  bufferLevel := round1 (1/10)
                  bufferEvaluations := configuredEmpty.bufferEvaluations + 1 } := by
  have h1 : configuredEmpty.videoVariants = [] := by rw [configuredEmpty_eq]
  have h2 : configuredEmpty.currentQualityIndex = 0 := by rw [configuredEmpty_eq]
  exact ⟨h1, h2, (empty_catalog_yields_no_selection configuredEmpty (1/10) h1 h2).2⟩

/-- C6 counterexample: a reachable state (catalog set to two variants, one
high-buffer evaluation raising the index to 1, then `setVariants([])`) in
which a buffer evaluation with an empty catalog *does* change
`currentQualityIndex` (1 to 0) and *does* throw (`undefined.bandwidth`
inside `decreaseQuality`), contradicting "the currentQualityIndex is left
unchanged and this is not an error". -/
theorem empty_catalog_c6_counterexample :
    shrunkEmptyAt1.videoVariants = []
    ∧ shrunkEmptyAt1.currentQualityIndex = 1
    ∧ evalOk (BufferManager.startMonitoringBuffer shrunkEmptyAt1 (1/10)) = false
    ∧ (resState (BufferManager.startMonitoringBuffer shrunkEmptyAt1 (1/10))).currentQualityIndex
        = 0 := by
  have he : shrunkEmptyAt1 =
      { videoVariants := []
        currentQualityIndex := 1
        bufferLevel := 9/10
        lowBufferThreshold := 3/10
        highBufferThreshold := 4/5
        config_ := some { exampleConfig with maxBandwidth := 500 }
        switchCallbackSet := true
        switchCalls := [⟨⟨500, 1⟩, 0, false⟩]
        downloadedSegments := []
        enabled_ := false
        isEnabled := none
        monitorTimerActive := true
        bufferEvaluations := 2 } := by
    rw [shrunkEmptyAt1, configuredEmpty_eq]
    norm_num [BufferManager.setVariants, BufferManager.startMonitoringBuffer,
      BufferManager.chooseVariant, BufferManager.decreaseQuality,
      BufferManager.increaseQuality, BufferManager.getVariantByQualityIndex,
      BufferManager.stepRestrict, BufferManager.restrictions, BufferManager.afterStep,
      BufferManager.emitSwitch, sortedCatalog, resState, round1_nine_tenths,
      exampleConfig, List.insertionSort, List.orderedInsert]
  rw [he]
  norm_num [BufferManager.startMonitoringBuffer, BufferManager.chooseVariant,
    BufferManager.decreaseQuality, BufferManager.increaseQuality,
    BufferManager.getVariantByQualityIndex, BufferManager.stepRestrict,
    BufferManager.restrictions, BufferManager.afterStep, BufferManager.emitSwitch,
    sortedCatalog, resState, evalOk, round1_one_tenth, List.insertionSort]

/-! ### C7 -/

theorem ratCast_list_sum (l : List ℚ) :
    ((l.sum : ℚ) : ℝ) = (l.map (fun d : ℚ => (d : ℝ))).sum := by
  simpa using map_list_sum (Rat.castHom ℝ) l

/-- C7: `calculateJitter` returns 0 when fewer than two delay samples
exist; with at least two it returns the sample standard deviation
(`n - 1` denominator, the spec-side `stddevSpec`) of all recorded delays,
rounded to the nearest integer and then divided by 1000; in particular for
delays `[100, 200, 300]` it returns `round(stddev)/1000 = 100/1000`. -/
theorem jitter_is_rounded_sample_stddev_over_1000 :
    (∀ s : State, (s.downloadedSegments.map (·.delay)).length < 2 →
        BufferManager.calculateJitter s = 0)
    ∧ (∀ s : State, 2 ≤ (s.downloadedSegments.map (·.delay)).length →
        BufferManager.calculateJitter s
          = (round (stddevSpec (s.downloadedSegments.map (·.delay))) : ℤ) / 1000)
    ∧ (∀ s : State, s.downloadedSegments.map (·.delay) = [100, 200, 300] →
        BufferManager.calculateJitter s = 1/10) := by
  have hsqrt : Real.sqrt 10000 = 100 := by
    rw [show (10000 : ℝ) = 100 ^ 2 by norm_num]
    exact Real.sqrt_sq (by norm_num)
  refine ⟨fun s h => ?_, fun s h => ?_, fun s h => ?_⟩
  · simp only [BufferManager.calculateJitter]
    rw [if_pos h]
  · simp only [BufferManager.calculateJitter, stddevSpec]
    rw [if_neg (not_lt.mpr h)]
    set delays := s.downloadedSegments.map (·.delay) with hdel
    have hmean : ((delays.sum / (delays.length : ℚ) : ℚ) : ℝ)
        = (delays.map (fun d : ℚ => (d : ℝ))).sum / (delays.length : ℝ) := by
      push_cast [ratCast_list_sum]
      ring
    have hkey : (((delays.map
          (fun d => (d - delays.sum / (delays.length : ℚ)) ^ 2)).sum : ℚ) : ℝ)
        = (delays.map (fun d : ℚ => ((d : ℝ) -
            (delays.map (fun d : ℚ => (d : ℝ))).sum / (delays.length : ℝ)) ^ 2)).sum := by
      -- cast the rational sum of squares to a real sum of squares
      rw [ratCast_list_sum, List.map_map]
      refine congrArg List.sum (List.map_congr_left fun d _ => ?_)
      simp only [Function.comp_apply]
      push_cast [hmean]
      ring
    rw [hkey]
  · simp only [BufferManager.calculateJitter, h]
    rw [if_neg (by norm_num)]
    have h1 : (([100, 200, 300] : List ℚ).sum / (([100, 200, 300] : List ℚ).length : ℚ))
        = 200 := by norm_num
    rw [h1]
    have h2 : ((([100, 200, 300] : List ℚ).map (fun d => (d - 200) ^ 2)).sum : ℚ)
        = 20000 := by norm_num
    rw [h2]
    have h3 : (((20000 : ℚ) : ℝ) / ((([100, 200, 300] : List ℚ).length : ℝ) - 1))
        = 10000 := by norm_num
    rw [h3, hsqrt]
    rw [show (100 : ℝ) = ((100 : ℤ) : ℝ) by norm_num, round_intCast]
    norm_num

/-- C7 witness: the engine with no telemetry has jitter 0, and the engine
with recorded delays `[100, 200, 300]` has jitter
`round(stddev([100, 200, 300])) / 1000 = 1/10`. -/
theorem jitter_witness :
    (configuredEmpty.downloadedSegments.map (·.delay)).length < 2
    ∧ BufferManager.calculateJitter configuredEmpty = 0
    ∧ jitterState3.downloadedSegments.map (·.delay) = [100, 200, 300]
    ∧ BufferManager.calculateJitter jitterState3 = 1/10 := by
  have h1 : (configuredEmpty.downloadedSegments.map (·.delay)).length < 2 := by
    rw [configuredEmpty_eq]
    norm_num
  have h2 : jitterState3.downloadedSegments.map (·.delay) = [100, 200, 300] := rfl
  exact ⟨h1, jitter_is_rounded_sample_stddev_over_1000.1 configuredEmpty h1, h2,
    jitter_is_rounded_sample_stddev_over_1000.2.2 jitterState3 h2⟩

/-! ### C8 -/

namespace BufferManager

theorem evals_restrictions (s : State) (bw : ℤ) :
    (resState (restrictions s bw)).bufferEvaluations = s.bufferEvaluations := by
  unfold restrictions resState
  cases s.config_ <;> rfl

theorem evals_stepRestrict (p : Option Variant × State) :
    (resState (stepRestrict p)).bufferEvaluations = p.2.bufferEvaluations := by
  unfold stepRestrict
  split
  · exact evals_restrictions _ _
  · rfl

theorem evals_decreaseQuality (s : State) :
    (resState (decreaseQuality s)).bufferEvaluations = s.bufferEvaluations := by
  unfold decreaseQuality
  split
  · rw [evals_stepRestrict]
    rfl
  · rfl

theorem evals_increaseQuality (s : State) :
    (resState (increaseQuality s)).bufferEvaluations = s.bufferEvaluations := by
  unfold increaseQuality
  split
  · rw [evals_stepRestrict]
    rfl
  · rfl

theorem evals_afterStep (r : Except State State) :
    (resStateP (afterStep r)).bufferEvaluations = (resState r).bufferEvaluations := by
  unfold afterStep
  split <;> rfl

theorem evals_emitSwitch (r : Except State (Option Variant × State)) :
    (resState (emitSwitch r)).bufferEvaluations = (resStateP r).bufferEvaluations := by
  unfold emitSwitch
  split
  · rfl
  · rfl
  · split
    · rfl
    · split <;> rfl

theorem evals_chooseVariant (s : State) :
    (resStateP (chooseVariant s)).bufferEvaluations = s.bufferEvaluations := by
  unfold chooseVariant
  split
  · rw [evals_afterStep, evals_decreaseQuality]
  · split
    · rw [evals_afterStep, evals_increaseQuality]
    · rfl

theorem evals_startMonitoringBuffer (s : State) (q : ℚ) :
    (resState (startMonitoringBuffer s q)).bufferEvaluations
      = s.bufferEvaluations + 1 := by
  unfold startMonitoringBuffer
  rw [evals_emitSwitch, evals_chooseVariant]

end BufferManager

/-- C8 counterexample: at the reachable, fully configured state
`shrunkEmptyAt1` (callback registered, configuration present), a
`segmentDownloaded` call with `allowSwitch = true` and a low-buffer sample
triggers an evaluation that throws (`undefined.bandwidth` inside
`decreaseQuality`); the exception propagates past the telemetry push
(player.js line 238 runs after line 225), so *nothing is appended* — the
record is not appended "unconditionally on every call". -/
theorem segment_downloaded_c8_counterexample :
    shrunkEmptyAt1.switchCallbackSet = true
    ∧ shrunkEmptyAt1.config_.isSome = true
    ∧ evalOk (BufferManager.segmentDownloaded shrunkEmptyAt1 5 7 3 true
        exampleRequest (1/10)) = false
    ∧ (resState (BufferManager.segmentDownloaded shrunkEmptyAt1 5 7 3 true
        exampleRequest (1/10))).downloadedSegments
      = shrunkEmptyAt1.downloadedSegments := by
  have he : shrunkEmptyAt1 =
      { videoVariants := []
        currentQualityIndex := 1
        bufferLevel := 9/10
        lowBufferThreshold := 3/10
        highBufferThreshold := 4/5
        config_ := some { exampleConfig with maxBandwidth := 500 }
        switchCallbackSet := true
        switchCalls := [⟨⟨500, 1⟩, 0, false⟩]
        downloadedSegments := []
        enabled_ := false
        isEnabled := none
        monitorTimerActive := true
        bufferEvaluations := 2 } := by
    rw [shrunkEmptyAt1, configuredEmpty_eq]
    norm_num [BufferManager.setVariants, BufferManager.startMonitoringBuffer,
      BufferManager.chooseVariant, BufferManager.decreaseQuality,
      BufferManager.increaseQuality, BufferManager.getVariantByQualityIndex,
      BufferManager.stepRestrict, BufferManager.restrictions, BufferManager.afterStep,
      BufferManager.emitSwitch, sortedCatalog, resState, round1_nine_tenths,
      exampleConfig, List.insertionSort, List.orderedInsert]
  rw [he]
  norm_num [BufferManager.segmentDownloaded, BufferManager.mapOk,
    BufferManager.pushSegment, BufferManager.startMonitoringBuffer,
    BufferManager.chooseVariant, BufferManager.decreaseQuality,
    BufferManager.increaseQuality, BufferManager.getVariantByQualityIndex,
    BufferManager.stepRestrict, BufferManager.restrictions, BufferManager.afterStep,
    BufferManager.emitSwitch, sortedCatalog, resState, evalOk, round1_one_tenth,
    List.insertionSort]

/-- C8 (amended): `segmentDownloaded` triggers exactly one buffer
evaluation per call when `allowSwitch` is true and zero when it is false,
and appends exactly one telemetry record (with the source's `timestamp`,
`latency` and `delay` fields) on every call that returns normally — always
when `allowSwitch` is false, and when `allowSwitch` is true provided the
triggered evaluation does not throw; if it throws, the exception
propagates and nothing is appended (the push on player.js line 238 runs
after the evaluation on line 225). -/
theorem segment_downloaded_appends_and_reevaluates (s : State) (now δ : ℚ)
    (nb : ℕ) (req : BufferManager.Request) (sample : ℚ) :
    (∀ s1 : State, BufferManager.startMonitoringBuffer s sample = .ok s1 →
        BufferManager.segmentDownloaded s now δ nb true req sample
          = .ok (BufferManager.pushSegment now δ req s1)
        ∧ s1.bufferEvaluations = s.bufferEvaluations + 1)
    ∧ (∀ e : State, BufferManager.startMonitoringBuffer s sample = .error e →
        BufferManager.segmentDownloaded s now δ nb true req sample = .error e
        ∧ e.bufferEvaluations = s.bufferEvaluations + 1)
    ∧ BufferManager.segmentDownloaded s now δ nb false req sample
        = .ok (BufferManager.pushSegment now δ req s)
    ∧ (∀ s1 : State, (BufferManager.pushSegment now δ req s1).downloadedSegments
        = s1.downloadedSegments ++
          [⟨req.contentType, now, δ + req.timeToFirstByte.getD 0,
            now - req.requestStartTime + req.timeToFirstByte.getD 0⟩])
    ∧ (BufferManager.pushSegment now δ req s).bufferEvaluations
        = s.bufferEvaluations := by
  refine ⟨fun s1 h => ⟨?_, ?_⟩, fun e h => ⟨?_, ?_⟩, rfl, fun s1 => rfl, rfl⟩
  · unfold BufferManager.segmentDownloaded
    rw [if_pos rfl, h]
    rfl
  · have := BufferManager.evals_startMonitoringBuffer s sample
    rw [h] at this
    exact this
  · unfold BufferManager.segmentDownloaded
    rw [if_pos rfl, h]
    rfl
  · have := BufferManager.evals_startMonitoringBuffer s sample
    rw [h] at this
    exact this

/-- C8 witness: on the configured engine with a mid-range sample `0.5`
(dead zone, no switch, normal return), a `segmentDownloaded` call with
`allowSwitch = true` performs exactly one buffer evaluation and appends
exactly one record; with `allowSwitch = false` it appends without
evaluating. -/
theorem segment_downloaded_witness :
    BufferManager.startMonitoringBuffer configuredEmpty (1/2)
        = .ok { configuredEmpty with bufferLevel := 1/2, bufferEvaluations := 2 }
    ∧ BufferManager.segmentDownloaded configuredEmpty 5 7 3 true exampleRequest (1/2)
        = .ok (BufferManager.pushSegment 5 7 exampleRequest
            { configuredEmpty with bufferLevel := 1/2, bufferEvaluations := 2 })
    ∧ ({ configuredEmpty with bufferLevel := 1/2, bufferEvaluations := 2 } : State).bufferEvaluations
        = configuredEmpty.bufferEvaluations + 1
    ∧ BufferManager.segmentDownloaded configuredEmpty 5 7 3 false exampleRequest (1/2)
        = .ok (BufferManager.pushSegment 5 7 exampleRequest configuredEmpty)
    ∧ (resState (BufferManager.segmentDownloaded configuredEmpty 5 7 3 false
          exampleRequest (1/2))).bufferEvaluations
        = configuredEmpty.bufferEvaluations := by
  have h : BufferManager.startMonitoringBuffer configuredEmpty (1/2)
      = .ok { configuredEmpty with bufferLevel := 1/2, bufferEvaluations := 2 } := by
    rw [configuredEmpty_eq]
    norm_num [BufferManager.startMonitoringBuffer, BufferManager.chooseVariant,
      BufferManager.decreaseQuality, BufferManager.increaseQuality,
      BufferManager.getVariantByQualityIndex, BufferManager.stepRestrict,
      BufferManager.afterStep, BufferManager.emitSwitch, sortedCatalog,
      round1_half, List.insertionSort]
  have hthm := segment_downloaded_appends_and_reevaluates configuredEmpty 5 7 3
    exampleRequest (1/2)
  refine ⟨h, (hthm.1 _ h).1, (hthm.1 _ h).2, hthm.2.2.1, ?_⟩
  rw [hthm.2.2.1]
  exact hthm.2.2.2.2

/-! ### C9 -/

theorem lastTimestampOf_or_foldl (l : List SegmentRecord) :
    ∀ v0 a0 : Option ℚ,
      l.foldl
        (fun p item =>
          if item.contentType = "video" then (some item.timestamp, p.2)
          else if item.contentType = "audio" then (p.1, some item.timestamp)
          else p)
        (v0, a0)
      = ((lastTimestampOf "video" l).or v0, (lastTimestampOf "audio" l).or a0) := by
  induction l with
  | nil => intro v0 a0; rfl
  | cons r l ih =>
    intro v0 a0
    rw [List.foldl_cons, ih]
    simp only [lastTimestampOf]
    by_cases hv : r.contentType = "video"
    · simp only [hv, if_true]
      have : ¬ ("video" : String) = "audio" := by decide
      simp only [this, if_false, if_true, reduceIte]
      cases lastTimestampOf "video" l <;> cases lastTimestampOf "audio" l <;> rfl
    · by_cases ha : r.contentType = "audio"
      · simp only [hv, ha, if_false, if_true, reduceIte]
        cases lastTimestampOf "video" l <;> cases lastTimestampOf "audio" l <;> rfl
      · simp only [hv, ha, if_false, reduceIte]
        cases lastTimestampOf "video" l <;> cases lastTimestampOf "audio" l <;> rfl

/-- C9 counterexample: with a single `"video"` record and no `"audio"`
record ever observed, `calculateDelay()` does not return any numeric value
at all — `undefined` arithmetic makes it `NaN` (modelled `none`), not a
"meaningless large value". -/
theorem cross_track_delay_c9_counterexample :
    delayStateVideoOnly.downloadedSegments ≠ []
    ∧ lastTimestampOf "video" delayStateVideoOnly.downloadedSegments = some 42
    ∧ lastTimestampOf "audio" delayStateVideoOnly.downloadedSegments = none
    ∧ BufferManager.calculateDelay delayStateVideoOnly none none = none := by
  refine ⟨by simp [delayStateVideoOnly], ?_, ?_, ?_⟩
  · simp [delayStateVideoOnly, lastTimestampOf]
  · simp [delayStateVideoOnly, lastTimestampOf]
  · simp [BufferManager.calculateDelay, BufferManager.absDiff, delayStateVideoOnly]

/-- C9 (amended): `calculateDelay()` (called with no arguments, as in the
source) scans all records in order tracking the last-seen `"video"` and
`"audio"` timestamps — a later record of the same type overwrites the
tracked value — and returns the absolute difference of the two; when one
of the two content types was never recorded it returns `NaN` (no numeric
value, modelled `none`), which callers must treat as "insufficient data",
not as a true delay. -/
theorem cross_track_delay_last_seen (s : State) :
    (∀ v a : ℚ, lastTimestampOf "video" s.downloadedSegments = some v →
        lastTimestampOf "audio" s.downloadedSegments = some a →
        BufferManager.calculateDelay s none none = some |v - a|)
    ∧ ((lastTimestampOf "video" s.downloadedSegments = none
        ∨ lastTimestampOf "audio" s.downloadedSegments = none) →
        BufferManager.calculateDelay s none none = none) := by
  have hscan := lastTimestampOf_or_foldl s.downloadedSegments none none
  constructor
  · intro v a hv ha
    unfold BufferManager.calculateDelay
    rw [hscan, hv, ha]
    rfl
  · intro h
    unfold BufferManager.calculateDelay
    rw [hscan]
    rcases h with h | h
    · rw [h]
      rfl
    · rw [h]
      cases (lastTimestampOf "video" s.downloadedSegments).or none <;> rfl

/-- C9 witness: with video records at timestamps 10 and 30 and an audio
record at 25, the last-seen timestamps are 30 and 25 and the delay is
`|30 - 25| = 5`; with the video-only store the result is `none`. -/
theorem cross_track_delay_witness :
    lastTimestampOf "video" delayStateBoth.downloadedSegments = some 30
    ∧ lastTimestampOf "audio" delayStateBoth.downloadedSegments = some 25
    ∧ BufferManager.calculateDelay delayStateBoth none none = some 5
    ∧ lastTimestampOf "audio" delayStateVideoOnly.downloadedSegments = none
    ∧ BufferManager.calculateDelay delayStateVideoOnly none none = none := by
  have h1 : lastTimestampOf "video" delayStateBoth.downloadedSegments = some 30 := by
    simp [delayStateBoth, lastTimestampOf]
  have h2 : lastTimestampOf "audio" delayStateBoth.downloadedSegments = some 25 := by
    simp [delayStateBoth, lastTimestampOf]
  have h3 := (cross_track_delay_last_seen delayStateBoth).1 30 25 h1 h2
  have h4 : lastTimestampOf "audio" delayStateVideoOnly.downloadedSegments = none := by
    simp [delayStateVideoOnly, lastTimestampOf]
  have h5 := (cross_track_delay_last_seen delayStateVideoOnly).2 (Or.inr h4)
  refine ⟨h1, h2, ?_, h4, h5⟩
  rw [h3]
  norm_num

/-! ### C10 -/

theorem setEnabled_config (b : Bool) (s : State) :
    (setEnabled b s).config_ = s.config_ := rfl

theorem setEnabled_switchCallbackSet (b : Bool) (s : State) :
    (setEnabled b s).switchCallbackSet = s.switchCallbackSet := rfl

theorem setEnabled_currentQualityIndex (b : Bool) (s : State) :
    (setEnabled b s).currentQualityIndex = s.currentQualityIndex := rfl

theorem setEnabled_videoVariants (b : Bool) (s : State) :
    (setEnabled b s).videoVariants = s.videoVariants := rfl

theorem setEnabled_bufferLevel (b : Bool) (s : State) :
    (setEnabled b s).bufferLevel = s.bufferLevel := rfl

theorem setEnabled_lowBufferThreshold (b : Bool) (s : State) :
    (setEnabled b s).lowBufferThreshold = s.lowBufferThreshold := rfl

theorem setEnabled_highBufferThreshold (b : Bool) (s : State) :
    (setEnabled b s).highBufferThreshold = s.highBufferThreshold := rfl

theorem setEnabled_bufferEvaluations (b : Bool) (s : State) :
    (setEnabled b s).bufferEvaluations = s.bufferEvaluations := rfl

theorem setEnabled_getVariant (b : Bool) (s : State) (i : ℕ) :
    BufferManager.getVariantByQualityIndex (setEnabled b s) i
      = ((BufferManager.getVariantByQualityIndex s i).1,
         setEnabled b (BufferManager.getVariantByQualityIndex s i).2) := rfl

theorem setEnabled_restrictions (b : Bool) (s : State) (bw : ℤ) :
    BufferManager.restrictions (setEnabled b s) bw
      = mapRes (setEnabled b) (BufferManager.restrictions s bw) := by
  unfold BufferManager.restrictions
  simp only [setEnabled_config]
  cases s.config_ <;> rfl

theorem setEnabled_stepRestrict (b : Bool) (p : Option Variant × State) :
    BufferManager.stepRestrict (p.1, setEnabled b p.2)
      = mapRes (setEnabled b) (BufferManager.stepRestrict p) := by
  obtain ⟨v?, s2⟩ := p
  cases v?
  · rfl
  · exact setEnabled_restrictions b s2 _

theorem setEnabled_decreaseQuality (b : Bool) (s : State) :
    BufferManager.decreaseQuality (setEnabled b s)
      = mapRes (setEnabled b) (BufferManager.decreaseQuality s) := by
  unfold BufferManager.decreaseQuality
  simp only [setEnabled_currentQualityIndex]
  by_cases h : 0 < s.currentQualityIndex
  · rw [if_pos h, if_pos h]
    show BufferManager.stepRestrict
        (BufferManager.getVariantByQualityIndex
          (setEnabled b { s with currentQualityIndex := s.currentQualityIndex - 1 })
          (s.currentQualityIndex - 1))
      = mapRes (setEnabled b)
          (BufferManager.stepRestrict
            (BufferManager.getVariantByQualityIndex
              { s with currentQualityIndex := s.currentQualityIndex - 1 }
              (s.currentQualityIndex - 1)))
    rw [setEnabled_getVariant]
    exact setEnabled_stepRestrict b _
  · rw [if_neg h, if_neg h]
    rfl

theorem setEnabled_increaseQuality (b : Bool) (s : State) :
    BufferManager.increaseQuality (setEnabled b s)
      = mapRes (setEnabled b) (BufferManager.increaseQuality s) := by
  unfold BufferManager.increaseQuality
  simp only [setEnabled_currentQualityIndex, setEnabled_videoVariants]
  by_cases h : (s.currentQualityIndex : ℤ) < (s.videoVariants.length : ℤ) - 1
  · rw [if_pos h, if_pos h]
    show BufferManager.stepRestrict
        (BufferManager.getVariantByQualityIndex
          (setEnabled b { s with currentQualityIndex := s.currentQualityIndex + 1 })
          (s.currentQualityIndex + 1))
      = mapRes (setEnabled b)
          (BufferManager.stepRestrict
            (BufferManager.getVariantByQualityIndex
              { s with currentQualityIndex := s.currentQualityIndex + 1 }
              (s.currentQualityIndex + 1)))
    rw [setEnabled_getVariant]
    exact setEnabled_stepRestrict b _
  · rw [if_neg h, if_neg h]
    rfl

theorem setEnabled_afterStep (b : Bool) (r : Except State State) :
    BufferManager.afterStep (mapRes (setEnabled b) r)
      = mapResP (setEnabled b) (BufferManager.afterStep r) := by
  cases r with
  | error e => rfl
  | ok s1 =>
    show BufferManager.afterStep (.ok (setEnabled b s1)) = _
    simp only [BufferManager.afterStep, setEnabled_currentQualityIndex,
      setEnabled_getVariant]
    rfl

theorem setEnabled_emitSwitch (b : Bool) (r : Except State (Option Variant × State)) :
    BufferManager.emitSwitch (mapResP (setEnabled b) r)
      = mapRes (setEnabled b) (BufferManager.emitSwitch r) := by
  cases r with
  | error e => rfl
  | ok p =>
    obtain ⟨v?, s1⟩ := p
    cases v?
    · rfl
    · show BufferManager.emitSwitch (.ok (some _, setEnabled b s1)) = _
      unfold BufferManager.emitSwitch
      simp only [setEnabled_config, setEnabled_switchCallbackSet]
      cases s1.config_
      · rfl
      · cases s1.switchCallbackSet <;> rfl

theorem setEnabled_chooseVariant (b : Bool) (s : State) :
    BufferManager.chooseVariant (setEnabled b s)
      = mapResP (setEnabled b) (BufferManager.chooseVariant s) := by
  unfold BufferManager.chooseVariant
  simp only [setEnabled_bufferLevel, setEnabled_lowBufferThreshold,
    setEnabled_highBufferThreshold, setEnabled_currentQualityIndex]
  by_cases h1 : s.bufferLevel < s.lowBufferThreshold
  · rw [if_pos h1, if_pos h1, setEnabled_decreaseQuality, setEnabled_afterStep]
  · rw [if_neg h1, if_neg h1]
    by_cases h2 : s.bufferLevel > s.highBufferThreshold
    · rw [if_pos h2, if_pos h2, setEnabled_increaseQuality, setEnabled_afterStep]
    · rw [if_neg h2, if_neg h2, setEnabled_getVariant]
      rfl

theorem setEnabled_startMonitoringBuffer (b : Bool) (s : State) (q : ℚ) :
    BufferManager.startMonitoringBuffer (setEnabled b s) q
      = mapRes (setEnabled b) (BufferManager.startMonitoringBuffer s q) := by
  unfold BufferManager.startMonitoringBuffer
  simp only [setEnabled_bufferEvaluations]
  show BufferManager.emitSwitch (BufferManager.chooseVariant
      (setEnabled b { s with
        bufferLevel := round1 q
        bufferEvaluations := s.bufferEvaluations + 1 })) = _
  rw [setEnabled_chooseVariant, setEnabled_emitSwitch]

theorem setEnabled_segmentDownloaded (b : Bool) (s : State) (now δ : ℚ) (nb : ℕ)
    (allowSwitch : Bool) (req : BufferManager.Request) (sample : ℚ) :
    BufferManager.segmentDownloaded (setEnabled b s) now δ nb allowSwitch req sample
      = mapRes (setEnabled b)
          (BufferManager.segmentDownloaded s now δ nb allowSwitch req sample) := by
  unfold BufferManager.segmentDownloaded
  cases allowSwitch
  · rfl
  · rw [if_pos rfl, if_pos rfl, setEnabled_startMonitoringBuffer]
    cases BufferManager.startMonitoringBuffer s sample <;> rfl

/-- C10: `enable()` and `disable()` only write the `enabled_` flag, and no
other operation reads it: `chooseVariant`, `startMonitoringBuffer`
(`evaluateBuffer`) and `segmentDownloaded` compute the same outcome — the
same chosen variant, the same thrown-or-normal status and the same state
changes — on `enabled_ := b` for either `b`, merely carrying the flag
through.  Hence disabling the manager stops neither quality switching nor
telemetry recording. -/
theorem enabled_flag_is_inert :
    (∀ s : State, BufferManager.enable s = setEnabled true s
        ∧ BufferManager.disable s = setEnabled false s)
    ∧ (∀ (b : Bool) (s : State),
        BufferManager.chooseVariant (setEnabled b s)
          = mapResP (setEnabled b) (BufferManager.chooseVariant s))
    ∧ (∀ (b : Bool) (s : State) (q : ℚ),
        BufferManager.startMonitoringBuffer (setEnabled b s) q
          = mapRes (setEnabled b) (BufferManager.startMonitoringBuffer s q))
    ∧ (∀ (b : Bool) (s : State) (now δ : ℚ) (nb : ℕ) (allowSwitch : Bool)
        (req : BufferManager.Request) (sample : ℚ),
        BufferManager.segmentDownloaded (setEnabled b s) now δ nb allowSwitch req sample
          = mapRes (setEnabled b)
              (BufferManager.segmentDownloaded s now δ nb allowSwitch req sample)) :=
  ⟨fun _ => ⟨rfl, rfl⟩, setEnabled_chooseVariant, setEnabled_startMonitoringBuffer,
    setEnabled_segmentDownloaded⟩

end Abr
